import Mathlib

/-
Verification of the KanBan Dashboard Server (src/server.py) against its
natural-language specification.

The development shallowly embeds the two API handlers of the server,
`send_status` and `send_log`, together with the shared response helper
`send_json`.  JSON values are modelled by the inductive type `JSON`
(numbers as integers; the claims under study involve no fractional
numbers).  Python dictionaries decoded from JSON are ordered string-keyed
association lists.  The file system and the stdlib `json` parser are
collaborators of the code, not part of it; they are modelled as
environment fields: the outcome of `open` plus `json.load` on the task
list, a snapshot function from status-file paths to their load outcome,
and an abstract `json.loads : String → Option JSON` for log lines.
A Python exception escaping the handler is modelled by `Except.error`;
exceptions caught by a `try`/`except` block in the source are resolved
inside the definitions, exactly where the source catches them.
-/

/-- Values produced by the Python `json` module: `None`, booleans, numbers
(modelled as integers), strings, lists, and string-keyed dicts in insertion
order. -/
inductive JSON where
  | null : JSON
  | bool (b : Bool) : JSON
  | num (n : Int) : JSON
  | str (s : String) : JSON
  | arr (xs : List JSON) : JSON
  | obj (kvs : List (String × JSON)) : JSON

/-- Python dict lookup `d[k]` restricted to its result: the value of the
first entry with key `k` (a dict decoded from JSON has unique keys). -/
def lookupKey : List (String × JSON) → String → Option JSON
  | [], _ => none
  | (k2, v) :: rest, k => if k2 = k then some v else lookupKey rest k

/-- Python dict assignment `d[k] = v`: overwrite the entry with key `k`
in place, keeping its position, or append a new entry at the end. -/
def setKey : List (String × JSON) → String → JSON → List (String × JSON)
  | [], k, v => [(k, v)]
  | (k2, v2) :: rest, k, v =>
    if k2 = k then (k, v) :: rest else (k2, v2) :: setKey rest k v

/-- Python `dict.update` with a dict argument: assign every key/value pair
of the argument, in its insertion order. -/
def dictUpdate (base : List (String × JSON)) : List (String × JSON) → List (String × JSON)
  | [] => base
  | (k, v) :: rest => dictUpdate (setKey base k v) rest

/-- One element of a sequence passed to `dict.update`: Python accepts any
iterable of length two and uses its first item as key and second as value.
A two-element JSON list with a string head, a two-character string, and a
two-key dict (iterated as its keys) all qualify; anything else raises.
Pairs whose key is not a string fall outside the string-keyed dict model
of this development and are folded into the raising case; no task or
status data in the claims produces them. -/
def updSeqItem : JSON → Option (String × JSON)
  | .arr [.str k, v] => some (k, v)
  | .str s =>
    match s.data with
    | [c1, c2] => some (String.mk [c1], .str (String.mk [c2]))
    | _ => none
  | .obj [(k1, _), (k2, _)] => some (k1, .str k2)
  | _ => none

/-- Python `dict.update` with a sequence argument: pairs are assigned one
by one, and a malformed element raises `after` the earlier assignments
took effect — the partially updated dict is kept. -/
def updatePairs (base : List (String × JSON)) : List JSON → List (String × JSON)
  | [] => base
  | item :: rest =>
    match updSeqItem item with
    | none => base
    | some (k, v) => updatePairs (setKey base k v) rest

/-- The effect on `task` of `task.update(status)` inside the
`try`/`except Exception: pass` of `send_status` (src/server.py lines
51-56): a dict argument merges; a list argument is treated as a sequence
of pairs; a non-iterable or string argument raises before any assignment.
Since the exception is caught, the function returns the dict as mutated
up to the point of failure. -/
def pyUpdate (base : List (String × JSON)) : JSON → List (String × JSON)
  | .obj kvs => dictUpdate base kvs
  | .arr items => updatePairs base items
  | _ => base

mutual

/-- Python `repr()` of a JSON-decoded value, used by `str()` on containers
(string escaping simplified to plain quoting; not load-bearing for any
claim, which only exercise string and integer ids). -/
def pyRepr : JSON → String
  | .null => "None"
  | .bool true => "True"
  | .bool false => "False"
  | .num n => toString n
  | .str s => "\x27" ++ s ++ "\x27"
  | .arr xs => "[" ++ pyReprList xs ++ "]"
  | .obj kvs => "\x7b" ++ pyReprObj kvs ++ "\x7d"

/-- Comma-separated `repr()` of list elements. -/
def pyReprList : List JSON → String
  | [] => ""
  | [x] => pyRepr x
  | x :: y :: xs => pyRepr x ++ ", " ++ pyReprList (y :: xs)

/-- Comma-separated `repr()` of dict entries. -/
def pyReprObj : List (String × JSON) → String
  | [] => ""
  | [(k, v)] => "\x27" ++ k ++ "\x27: " ++ pyRepr v
  | (k, v) :: p :: rest => "\x27" ++ k ++ "\x27: " ++ pyRepr v ++ ", " ++ pyReprObj (p :: rest)

end

/-- Python `str()` as used by the f-string `task-{task["id"]}.json`:
identity on strings, `repr()` otherwise (for `None`, booleans, integers,
lists and dicts, `str` and `repr` agree). -/
def pyStr : JSON → String
  | .str s => s
  | v => pyRepr v

/-- Fixed root directory of the dashboard (src/server.py line 9). -/
def DASHBOARD_DIR : String := "/tmp/kanban-dashboard"

/-- Status store directory, `os.path.join(DASHBOARD_DIR, "status")`
(src/server.py line 10). -/
def STATUS_DIR : String := "/tmp/kanban-dashboard/status"

/-- Activity log path, `os.path.join(DASHBOARD_DIR, "activity.log")`
(src/server.py line 11). -/
def LOG_FILE : String := "/tmp/kanban-dashboard/activity.log"

/-- File-system and clock snapshot seen by one `GET /api/status` request.
`tasksJson` is the outcome of `open(tasks.json)` plus `json.load`: `none`
when either raises (missing, unreadable or unparsable file), otherwise
the parsed document.  `statusFile p` describes the status-store file at
path `p`: `none` when `os.path.exists p` is false, `some none` when the
file exists but `open` or `json.load` raises, `some (some j)` when it
parses to `j`.  `serverTime` is `datetime.now().isoformat()`. -/
structure StatusEnv where
  tasksJson : Option JSON
  statusFile : String → Option (Option JSON)
  serverTime : String

/-- The status-file path computed for a task id (src/server.py line 49):
`os.path.join(STATUS_DIR, f"task-{id}.json")`.  The joined file name
never starts with a slash, so `os.path.join` concatenates with a single
separator. -/
def task_path (idv : JSON) : String :=
  STATUS_DIR ++ "/task-" ++ pyStr idv ++ ".json"

/-- A Python exception escaping a handler uncaught. -/
inductive PyErr where
  | keyError : PyErr
  | typeError : PyErr

/-- One iteration of the loop of `send_status` (src/server.py lines
48-56) on the loop variable `task`.  `task["id"]` raises `TypeError` on a
non-dict and `KeyError` on a dict without the key; both are outside any
`try` block.  The status-file read and merge are inside
`try ... except Exception: pass`, so every failure there leaves the
record as mutated so far and continues. -/
def processTask (env : StatusEnv) (task : JSON) : Except PyErr JSON :=
  match task with
  | .obj tk =>
    match lookupKey tk "id" with
    | none => .error .keyError
    | some idv =>
      match env.statusFile (task_path idv) with
      | none => .ok task
      | some none => .ok task
      | some (some st) => .ok (.obj (pyUpdate tk st))
  | _ => .error .typeError

/-- The whole loop of `send_status` over the task list.  An uncaught
exception aborts the handler; records mutated before the abort are never
serialized, so discarding them is observationally faithful. -/
def processTasks (env : StatusEnv) : List JSON → Except PyErr (List JSON)
  | [] => .ok []
  | t :: ts =>
    match processTask env t with
    | .error e => .error e
    | .ok t2 =>
      match processTasks env ts with
      | .error e => .error e
      | .ok ts2 => .ok (t2 :: ts2)

/-- Embedding of `send_status` (src/server.py lines 40-59), returning the
JSON document handed to `send_json`, or the uncaught exception.  After
the guarded load of `tasks.json`, the subscript `data["tasks"]` raises
`KeyError` on a dict without the key and `TypeError` on any non-dict;
`for task in ...` raises `TypeError` on a non-iterable value; iterating a
non-empty dict yields key strings and iterating a non-empty string yields
one-character strings, and in both cases the first `task["id"]` raises
`TypeError`, while the empty dict and the empty string run the loop zero
times.  Finally `data["server_time"]` is assigned the clock string. -/
def send_status (env : StatusEnv) : Except PyErr JSON :=
  match env.tasksJson with
  | none => .ok (.obj [("error", .str "tasks.json not found")])
  | some (.obj kvs) =>
    match lookupKey kvs "tasks" with
    | none => .error .keyError
    | some (.arr xs) =>
      match processTasks env xs with
      | .error e => .error e
      | .ok ys =>
        .ok (.obj (setKey (setKey kvs "tasks" (.arr ys)) "server_time" (.str env.serverTime)))
    | some (.obj []) => .ok (.obj (setKey kvs "server_time" (.str env.serverTime)))
    | some (.obj (_ :: _)) => .error .typeError
    | some (.str s) =>
      if s = "" then .ok (.obj (setKey kvs "server_time" (.str env.serverTime)))
      else .error .typeError
    | some _ => .error .typeError
  | some _ => .error .typeError

/-- File-system snapshot seen by one `GET /api/log` request.
`logExists` is `os.path.exists(LOG_FILE)`; `lines` is the outcome of
`open` plus `readlines` (the list of raw lines), `none` when either
raises; `parse` is the stdlib `json.loads` on one line, `none` when it
raises. -/
structure LogEnv where
  logExists : Bool
  lines : Option (List String)
  parse : String → Option JSON

/-- Python `str.strip()` on the character list of a line (restricted to
ASCII whitespace, which covers every line ending `readlines` leaves in
place). -/
def stripChars (l : List Char) : List Char :=
  ((l.dropWhile Char.isWhitespace).reverse.dropWhile Char.isWhitespace).reverse

/-- Python `line.strip()` (src/server.py line 68). -/
def pyStrip (s : String) : String :=
  String.mk (stripChars s.data)

/-- The body of the loop of `send_log` (src/server.py lines 67-73):
skip a line that is blank after stripping; otherwise append the parsed
JSON value, or the wrapper object when `json.loads` raises. -/
def log_step (parse : String → Option JSON) (acc : List JSON) (line : String) : List JSON :=
  let t := pyStrip line
  if t = "" then acc
  else
    match parse t with
    | some v => acc ++ [v]
    | none => acc ++ [.obj [("message", .str t), ("time", .str "")]]

/-- The `entries` list built by `send_log` (src/server.py lines 62-75):
empty when the log file is missing or its read raises, otherwise the loop
over the last 50 raw lines (`readlines()[-50:]`). -/
def log_entries (env : LogEnv) : List JSON :=
  if env.logExists then
    match env.lines with
    | none => []
    | some ls => (ls.drop (ls.length - 50)).foldl (log_step env.parse) []
  else []

/-- Embedding of `send_log` (src/server.py lines 61-76): the JSON
document handed to `send_json`.  No exception can escape: the file read
is guarded and each parse is guarded. -/
def send_log (env : LogEnv) : JSON :=
  .obj [("entries", .arr (log_entries env))]

/-- An HTTP response as shaped by `send_json`: status code, headers, and
the JSON document serialized into the body. -/
structure HttpResponse where
  status : Nat
  headers : List (String × String)
  body : JSON

/-- The three headers set by `send_json` (src/server.py lines 34-36). -/
def stdHeaders : List (String × String) :=
  [("Content-Type", "application/json"),
   ("Access-Control-Allow-Origin", "*"),
   ("Cache-Control", "no-cache")]

/-- Embedding of `send_json` (src/server.py lines 31-38): every response
it produces has status 200 and the three fixed headers. -/
def send_json (data : JSON) : HttpResponse :=
  { status := 200, headers := stdHeaders, body := data }

/-- The full `GET /api/status` endpoint: the document produced by
`send_status` shipped through `send_json`, or the uncaught exception
(in the source `send_json` is called inside `send_status`; composing it
after the fact is the same function). -/
def api_status (env : StatusEnv) : Except PyErr HttpResponse :=
  (send_status env).map send_json

/-- The full `GET /api/log` endpoint, total. -/
def api_log (env : LogEnv) : HttpResponse :=
  send_json (send_log env)

/-- Well-formedness of one task record as the loop of `send_status`
requires it: a dict carrying an `id` key. -/
def hasId : JSON → Bool
  | .obj tk => (lookupKey tk "id").isSome
  | _ => false

/-- The merged record for one task when its processing cannot raise:
the value `processTask` returns, with the (unreachable) error case mapped
to the input. -/
def mergeOf (env : StatusEnv) (t : JSON) : JSON :=
  match processTask env t with
  | .ok r => r
  | .error _ => t

/-- The optional entry contributed by one raw log line, mirroring the
loop body of `send_log`. -/
def line_entry (parse : String → Option JSON) (line : String) : Option JSON :=
  let t := pyStrip line
  if t = "" then none
  else
    match parse t with
    | some v => some v
    | none => some (.obj [("message", .str t), ("time", .str "")])

/-- Whether a JSON value is an object. -/
def isObj : JSON → Bool
  | .obj _ => true
  | _ => false

/-- Split a character list at every slash (the components of a POSIX
path, empty components included). -/
def splitSlash : List Char → List (List Char)
  | [] => [[]]
  | c :: cs =>
    if c = '/' then [] :: splitSlash cs
    else
      match splitSlash cs with
      | [] => [[c]]
      | p :: ps => (c :: p) :: ps

/-- Lexical resolution of the components of an absolute path, as the
operating system resolves them when the intermediate directories exist:
a `..` component pops the previous one, `.` and empty components vanish. -/
def resolveComponents : List (List Char) → List (List Char) → List (List Char)
  | acc, [] => acc
  | acc, c :: cs =>
    if c = ['.', '.'] then resolveComponents acc.dropLast cs
    else if c = ['.'] ∨ c = [] then resolveComponents acc cs
    else resolveComponents (acc ++ [c]) cs

/-- The resolved component list of an absolute path. -/
def resolvePath (s : String) : List (List Char) :=
  resolveComponents [] (splitSlash s.data)

/-- The path `p` resolves to a location strictly inside directory `dir`. -/
def inDir (dir p : String) : Prop :=
  ∃ rest, rest ≠ [] ∧ resolvePath p = resolvePath dir ++ rest

/-- Concrete request snapshot: the task list parses to a JSON object with
no `tasks` field. -/
def envNoTasksField : StatusEnv :=
  { tasksJson := some (.obj []), statusFile := fun _ => none, serverTime := "T" }

/-- Concrete request snapshot: a well-formed one-task document whose
status file exists but fails to load. -/
def envWellFormed : StatusEnv :=
  { tasksJson := some (.obj [("tasks", .arr [.obj [("id", .str "a")]])]),
    statusFile := fun _ => some none, serverTime := "T" }

/-- Concrete request snapshot: a one-task document whose status file
parses to a JSON list of key/value pairs rather than to an object. -/
def envPairsStatus : StatusEnv :=
  { tasksJson := some (.obj [("tasks", .arr [.obj [("id", .num 1)]])]),
    statusFile := fun _ => some (some (.arr [.arr [.str "a", .num 1]])), serverTime := "T" }

/-- Concrete request snapshot: a one-task document with no status file
present. -/
def envNoStatus : StatusEnv :=
  { tasksJson := some (.obj [("tasks", .arr [.obj [("id", .str "a")]])]),
    statusFile := fun _ => none, serverTime := "T" }

/-- Concrete request snapshot: a one-task document whose status file
parses to an object overriding one field and adding another. -/
def envObjStatus : StatusEnv :=
  { tasksJson := some (.obj [("tasks", .arr [.obj [("id", .str "a"), ("x", .num 1)]])]),
    statusFile := fun _ => some (some (.obj [("x", .num 2), ("y", .str "z")])),
    serverTime := "T" }

/-- Concrete request snapshot: the task list is missing or unreadable. -/
def envMissingTasks : StatusEnv :=
  { tasksJson := none, statusFile := fun _ => none, serverTime := "T" }

/-- Concrete request snapshot: every status file exists but fails to
load; the task list is absent. -/
def envAllRaise : StatusEnv :=
  { tasksJson := none, statusFile := fun _ => some none, serverTime := "U" }

/-- Concrete log snapshot: no activity log file. -/
def lenvEmpty : LogEnv :=
  { logExists := false, lines := none, parse := fun _ => none }

/-- Concrete log snapshot: one unparsable line and one blank line. -/
def lenvTwo : LogEnv :=
  { logExists := true, lines := some ["a", " "], parse := fun _ => none }

/-- Concrete log snapshot: a single line parsing to the number 7. -/
def lenvNum : LogEnv :=
  { logExists := true, lines := some ["7"],
    parse := fun s => if s = "7" then some (.num 7) else none }

/-- Assigning key `k` makes `k` look up to the new value. -/
theorem lookupKey_setKey_self (l : List (String × JSON)) (k : String) (v : JSON) :
    lookupKey (setKey l k v) k = some v := by
  induction l with
  | nil => simp [setKey, lookupKey]
  | cons p rest ih =>
    obtain ⟨k2, v2⟩ := p
    by_cases h : k2 = k
    · subst h; simp [setKey, lookupKey]
    · simp [setKey, lookupKey, h, ih]

/-- Assigning key `k` leaves every other key unchanged. -/
theorem lookupKey_setKey_ne (l : List (String × JSON)) (k k2 : String) (v : JSON)
    (h : k2 ≠ k) : lookupKey (setKey l k v) k2 = lookupKey l k2 := by
  induction l with
  | nil => simp [setKey, lookupKey, Ne.symm h]
  | cons p rest ih =>
    obtain ⟨k3, v3⟩ := p
    by_cases h3 : k3 = k
    · subst h3
      simp [setKey, lookupKey, Ne.symm h]
    · simp [setKey, lookupKey, h3, ih]

/-- A key that occurs in no entry looks up to nothing. -/
theorem lookupKey_eq_none (l : List (String × JSON)) (k : String)
    (h : k ∉ l.map Prod.fst) : lookupKey l k = none := by
  induction l with
  | nil => simp [lookupKey]
  | cons p rest ih =>
    obtain ⟨k2, v2⟩ := p
    simp only [List.map_cons, List.mem_cons] at h
    push_neg at h
    simp [lookupKey, Ne.symm h.1, ih h.2]

/-- Lookup after a dict merge: the update wins on every key it carries,
and every other key falls through to the base dict. -/
theorem lookupKey_dictUpdate (base sk : List (String × JSON)) (k : String)
    (hnd : (sk.map Prod.fst).Nodup) :
    lookupKey (dictUpdate base sk) k = (lookupKey sk k).or (lookupKey base k) := by
  induction sk generalizing base with
  | nil => simp [dictUpdate, lookupKey]
  | cons p rest ih =>
    obtain ⟨k1, v1⟩ := p
    simp only [List.map_cons, List.nodup_cons] at hnd
    have step : dictUpdate base ((k1, v1) :: rest) = dictUpdate (setKey base k1 v1) rest := rfl
    rw [step, ih _ hnd.2]
    by_cases h : k1 = k
    · subst h
      rw [lookupKey_eq_none rest k1 hnd.1, lookupKey_setKey_self]
      simp [lookupKey]
    · rw [lookupKey_setKey_ne base k1 k v1 (Ne.symm h)]
      simp [lookupKey, h]

/-- A well-formed task record is processed without an exception, to the
value `mergeOf` describes. -/
theorem processTask_isOk (env : StatusEnv) (t : JSON) (h : hasId t = true) :
    processTask env t = .ok (mergeOf env t) := by
  cases t with
  | obj tk =>
    cases hl : lookupKey tk "id" with
    | none => simp [hasId, hl] at h
    | some idv =>
      cases hs : env.statusFile (task_path idv) with
      | none => simp [processTask, mergeOf, hl, hs]
      | some o =>
        cases o with
        | none => simp [processTask, mergeOf, hl, hs]
        | some st => simp [processTask, mergeOf, hl, hs]
  | null => simp [hasId] at h
  | bool b => simp [hasId] at h
  | num n => simp [hasId] at h
  | str s => simp [hasId] at h
  | arr xs => simp [hasId] at h

/-- When every task record is well formed, the loop of `send_status`
finishes and maps each record through `mergeOf` in order. -/
theorem processTasks_eq_map (env : StatusEnv) (xs : List JSON)
    (h : ∀ t ∈ xs, hasId t = true) :
    processTasks env xs = .ok (xs.map (mergeOf env)) := by
  induction xs with
  | nil => simp [processTasks]
  | cons t ts ih =>
    have ht := h t (by simp)
    have hts := ih (fun x hx => h x (by simp [hx]))
    simp [processTasks, processTask_isOk env t ht, hts]

/-- On a well-formed document, `send_status` answers with the original
top-level fields, the merged task list written back in place, and the
`server_time` field assigned last. -/
theorem send_status_ok (env : StatusEnv) (kvs : List (String × JSON)) (xs : List JSON)
    (henv : env.tasksJson = some (.obj kvs))
    (ht : lookupKey kvs "tasks" = some (.arr xs))
    (hwf : ∀ t ∈ xs, hasId t = true) :
    send_status env =
      .ok (.obj (setKey (setKey kvs "tasks" (.arr (xs.map (mergeOf env))))
        "server_time" (.str env.serverTime))) := by
  simp [send_status, henv, ht, processTasks_eq_map env xs hwf]

/-- A task whose status file is absent, or whose open or load raises,
is left unchanged by the merge loop. -/
theorem mergeOf_unchanged (env : StatusEnv) (tk : List (String × JSON)) (idv : JSON)
    (hid : lookupKey tk "id" = some idv)
    (habs : env.statusFile (task_path idv) = none ∨
            env.statusFile (task_path idv) = some none) :
    mergeOf env (.obj tk) = .obj tk := by
  rcases habs with hs | hs <;> simp [mergeOf, processTask, hid, hs]

/-- A task whose status file parses to a JSON object is replaced by the
shallow merge of its fields with the status fields. -/
theorem mergeOf_merge (env : StatusEnv) (tk sk : List (String × JSON)) (idv : JSON)
    (hid : lookupKey tk "id" = some idv)
    (hst : env.statusFile (task_path idv) = some (some (.obj sk))) :
    mergeOf env (.obj tk) = .obj (dictUpdate tk sk) := by
  simp [mergeOf, processTask, hid, hst, pyUpdate]

/-- One loop iteration of `send_log` appends exactly the optional entry
of the line. -/
theorem log_step_eq (parse : String → Option JSON) (acc : List JSON) (line : String) :
    log_step parse acc line = acc ++ (line_entry parse line).toList := by
  by_cases h : pyStrip line = ""
  · simp [log_step, line_entry, h]
  · cases hp : parse (pyStrip line) <;> simp [log_step, line_entry, h, hp]

/-- The loop of `send_log` is the filter-map of the per-line entry over
the processed window, in order. -/
theorem foldl_log_step (parse : String → Option JSON) (w : List String) (acc : List JSON) :
    w.foldl (log_step parse) acc = acc ++ w.filterMap (line_entry parse) := by
  induction w generalizing acc with
  | nil => simp
  | cons l ls ih =>
    rw [List.foldl_cons, ih, log_step_eq, List.filterMap_cons]
    cases h : line_entry parse l <;> simp [h]

/-- The entries of `send_log` on an existing, readable log file: the
per-line entries of the last 50 raw lines in file order. -/
theorem log_entries_eq (env : LogEnv) (ls : List String)
    (h1 : env.logExists = true) (h2 : env.lines = some ls) :
    log_entries env = (ls.drop (ls.length - 50)).filterMap (line_entry env.parse) := by
  simp [log_entries, h1, h2, foldl_log_step]

/-- Concatenation of strings concatenates their character lists. -/
theorem data_append (a b : String) : (a ++ b).data = a.data ++ b.data := by
  cases a; cases b; rfl

/-- Splitting never yields an empty component list. -/
theorem splitSlash_ne_nil (l : List Char) : splitSlash l ≠ [] := by
  cases l with
  | nil => simp [splitSlash]
  | cons c cs =>
    by_cases h : c = '/'
    · simp [splitSlash, h]
    · cases hs : splitSlash cs with
      | nil => simp [splitSlash, h, hs]
      | cons p ps => simp [splitSlash, h, hs]

/-- Splitting distributes over a slash in the middle. -/
theorem splitSlash_append (l1 l2 : List Char) :
    splitSlash (l1 ++ '/' :: l2) = splitSlash l1 ++ splitSlash l2 := by
  induction l1 with
  | nil => simp [splitSlash]
  | cons c cs ih =>
    by_cases h : c = '/'
    · subst h; simp [splitSlash, ih]
    · cases hs : splitSlash cs with
      | nil => exact absurd hs (splitSlash_ne_nil cs)
      | cons p ps => simp [splitSlash, h, ih, hs]

/-- A slash-free character list is a single component. -/
theorem splitSlash_no_slash (l : List Char) (h : ∀ c ∈ l, c ≠ '/') :
    splitSlash l = [l] := by
  induction l with
  | nil => simp [splitSlash]
  | cons c cs ih =>
    have hc : ¬ c = '/' := h c (by simp)
    have ihh := ih (fun x hx => h x (by simp [hx]))
    simp [splitSlash, hc, ihh]

/-- An empty component is skipped by resolution. -/
theorem resolveComponents_nil_comp (acc : List (List Char)) (cs : List (List Char)) :
    resolveComponents acc ([] :: cs) = resolveComponents acc cs := by
  simp [resolveComponents]

/-- Components of length at least three are neither parent nor current
directory markers, so resolution just appends them. -/
theorem resolveComponents_plain (acc : List (List Char)) (cs : List (List Char))
    (h : ∀ c ∈ cs, 3 ≤ c.length) :
    resolveComponents acc cs = acc ++ cs := by
  induction cs generalizing acc with
  | nil => simp [resolveComponents]
  | cons c cs ih =>
    have hc := h c (by simp)
    have h1 : ¬ c = ['.', '.'] := by intro he; subst he; simp at hc
    have h2 : ¬ (c = ['.'] ∨ c = []) := by
      rintro (he | he) <;> (subst he; simp at hc)
    simp only [resolveComponents]
    rw [if_neg h1, if_neg h2, ih _ (fun x hx => h x (by simp [hx]))]
    simp

/-- The resolved components of the Status Store directory. -/
theorem resolvePath_STATUS_DIR :
    resolvePath STATUS_DIR = ["tmp".data, "kanban-dashboard".data, "status".data] := by
  decide

/-- The resolved components of the status-file path of a task id whose
rendered text contains no slash: one file component strictly inside the
Status Store directory. -/
theorem resolvePath_task_path (idv : JSON) (h : ∀ c ∈ (pyStr idv).data, c ≠ '/') :
    resolvePath (task_path idv) =
      ["tmp".data, "kanban-dashboard".data, "status".data,
       "task-".data ++ ((pyStr idv).data ++ ".json".data)] := by
  have h1 : "/task-".data = '/' :: "task-".data := by decide
  have hd : (task_path idv).data =
      "/tmp/kanban-dashboard/status".data ++
        '/' :: ("task-".data ++ ((pyStr idv).data ++ ".json".data)) := by
    show (STATUS_DIR ++ "/task-" ++ pyStr idv ++ ".json").data = _
    rw [data_append, data_append, data_append, h1]
    simp [STATUS_DIR]
  have hT : ∀ c ∈ ("task-".data ++ ((pyStr idv).data ++ ".json".data)), c ≠ '/' := by
    intro c hc
    rcases List.mem_append.mp hc with hc1 | hc2
    · have hall : ∀ c ∈ "task-".data, c ≠ '/' := by decide
      exact hall c hc1
    · rcases List.mem_append.mp hc2 with hc3 | hc4
      · exact h c hc3
      · have hall : ∀ c ∈ ".json".data, c ≠ '/' := by decide
        exact hall c hc4
  have hA : splitSlash "/tmp/kanban-dashboard/status".data =
      [[], "tmp".data, "kanban-dashboard".data, "status".data] := by decide
  show resolveComponents [] (splitSlash (task_path idv).data) = _
  rw [hd, splitSlash_append, hA, splitSlash_no_slash _ hT]
  simp only [List.cons_append, List.nil_append]
  rw [resolveComponents_nil_comp, resolveComponents_plain]
  · simp
  · intro c hc
    simp only [List.mem_cons] at hc
    rcases hc with he | he | he | he | he
    · subst he; decide
    · subst he; decide
    · subst he; decide
    · subst he; simp
    · simp at he

/-- C1 counterexample: a task-list file whose contents parse as JSON but
lack a `tasks` field makes `send_status` raise an uncaught `KeyError` at
`data["tasks"]` (src/server.py line 48, outside every `try` block), so
the handler produces no response for the client. -/
theorem c1_counterexample :
    send_status envNoTasksField = .error .keyError := rfl

/-- C1 (amended): when the task-list document is a JSON object whose
`tasks` field is a list of objects each carrying an `id` field, handling
GET /api/status produces a response for every state of the status store
(file and parse errors there are caught where they occur), and handling
GET /api/log always produces a response. -/
theorem c1_no_fault_on_wellformed (env : StatusEnv) (lenv : LogEnv)
    (kvs : List (String × JSON)) (xs : List JSON)
    (henv : env.tasksJson = some (.obj kvs))
    (ht : lookupKey kvs "tasks" = some (.arr xs))
    (hwf : ∀ t ∈ xs, hasId t = true) :
    (∃ r, send_status env = .ok r) ∧
    (∃ es, send_log lenv = .obj [("entries", .arr es)]) :=
  ⟨⟨_, send_status_ok env kvs xs henv ht hwf⟩, ⟨log_entries lenv, rfl⟩⟩

/-- C1 witness: the amended theorem evaluated on a concrete well-formed
document whose only status file exists but fails to load. -/
theorem c1_witness :
    (∃ r, send_status envWellFormed = .ok r) ∧
    (∃ es, send_log lenvEmpty = .obj [("entries", .arr es)]) :=
  c1_no_fault_on_wellformed envWellFormed lenvEmpty
    [("tasks", .arr [.obj [("id", .str "a")]])] [.obj [("id", .str "a")]]
    rfl rfl (by decide)

/-- C2 counterexample: a status file that exists and parses as JSON, but
as a list of key/value pairs instead of the intended object, is accepted
by `task.update` (src/server.py line 54) and changes the record: the task
`{"id": 1}` is emitted as `{"id": 1, "a": 1}`. -/
theorem c2_counterexample :
    send_status envPairsStatus =
      .ok (.obj [("tasks", .arr [.obj [("id", .num 1), ("a", .num 1)]]),
                 ("server_time", .str "T")]) ∧
    JSON.obj [("id", .num 1), ("a", .num 1)] ≠ JSON.obj [("id", .num 1)] :=
  ⟨rfl, by simp⟩

/-- C2 (amended): for every task record whose status file is absent, or
exists but whose open or `json.load` raises, the record emitted by
GET /api/status equals the original task record from the task-list
document, with no field added, removed, or altered.  (The original claim
extended this to every file that fails to parse `as intended`; a file
parsing to a JSON list of pairs does merge, see the counterexample.) -/
theorem c2_unchanged_when_unreadable (env : StatusEnv)
    (kvs : List (String × JSON)) (xs : List JSON) (i : Nat)
    (task : JSON) (tk : List (String × JSON)) (idv : JSON)
    (henv : env.tasksJson = some (.obj kvs))
    (ht : lookupKey kvs "tasks" = some (.arr xs))
    (hwf : ∀ t ∈ xs, hasId t = true)
    (hi : xs[i]? = some task)
    (htask : task = .obj tk)
    (hid : lookupKey tk "id" = some idv)
    (habs : env.statusFile (task_path idv) = none ∨
            env.statusFile (task_path idv) = some none) :
    send_status env =
      .ok (.obj (setKey (setKey kvs "tasks" (.arr (xs.map (mergeOf env))))
        "server_time" (.str env.serverTime))) ∧
    (xs.map (mergeOf env))[i]? = some task := by
  refine ⟨send_status_ok env kvs xs henv ht hwf, ?_⟩
  subst htask
  rw [List.getElem?_map, hi]
  simp [mergeOf_unchanged env tk idv hid habs]

/-- C2 witness: the theorem evaluated on a concrete document whose only
status file is absent. -/
theorem c2_witness :
    send_status envNoStatus =
      .ok (.obj (setKey (setKey [("tasks", .arr [.obj [("id", .str "a")]])]
        "tasks" (.arr ([JSON.obj [("id", .str "a")]].map (mergeOf envNoStatus))))
        "server_time" (.str envNoStatus.serverTime))) ∧
    ([JSON.obj [("id", .str "a")]].map (mergeOf envNoStatus))[0]? =
      some (.obj [("id", .str "a")]) :=
  c2_unchanged_when_unreadable envNoStatus
    [("tasks", .arr [.obj [("id", .str "a")]])] [.obj [("id", .str "a")]] 0
    (.obj [("id", .str "a")]) [("id", .str "a")] (.str "a")
    rfl rfl (by decide) rfl rfl rfl (Or.inl rfl)

/-- C3: for every task record whose status file exists and parses as a
JSON object, the record emitted by GET /api/status is the task record
shallow-merged with the status object, and on any key the status value
wins when present, with every other key falling through to the task
record. -/
theorem c3_merge_object (env : StatusEnv)
    (kvs : List (String × JSON)) (xs : List JSON) (i : Nat)
    (task : JSON) (tk sk : List (String × JSON)) (idv : JSON)
    (henv : env.tasksJson = some (.obj kvs))
    (ht : lookupKey kvs "tasks" = some (.arr xs))
    (hwf : ∀ t ∈ xs, hasId t = true)
    (hi : xs[i]? = some task)
    (htask : task = .obj tk)
    (hid : lookupKey tk "id" = some idv)
    (hst : env.statusFile (task_path idv) = some (some (.obj sk)))
    (hnd : (sk.map Prod.fst).Nodup) :
    send_status env =
      .ok (.obj (setKey (setKey kvs "tasks" (.arr (xs.map (mergeOf env))))
        "server_time" (.str env.serverTime))) ∧
    (xs.map (mergeOf env))[i]? = some (.obj (dictUpdate tk sk)) ∧
    (∀ k, lookupKey (dictUpdate tk sk) k = (lookupKey sk k).or (lookupKey tk k)) := by
  refine ⟨send_status_ok env kvs xs henv ht hwf, ?_,
    fun k => lookupKey_dictUpdate tk sk k hnd⟩
  subst htask
  rw [List.getElem?_map, hi]
  simp [mergeOf_merge env tk sk idv hid hst]

/-- C3 witness: the theorem evaluated on a concrete document whose only
status file parses to an object overriding `x` and adding `y`. -/
theorem c3_witness :
    send_status envObjStatus =
      .ok (.obj (setKey (setKey [("tasks", .arr [.obj [("id", .str "a"), ("x", .num 1)]])]
        "tasks" (.arr ([JSON.obj [("id", .str "a"), ("x", .num 1)]].map (mergeOf envObjStatus))))
        "server_time" (.str envObjStatus.serverTime))) ∧
    ([JSON.obj [("id", .str "a"), ("x", .num 1)]].map (mergeOf envObjStatus))[0]? =
      some (.obj (dictUpdate [("id", .str "a"), ("x", .num 1)]
        [("x", .num 2), ("y", .str "z")])) ∧
    (∀ k, lookupKey (dictUpdate [("id", .str "a"), ("x", .num 1)]
        [("x", .num 2), ("y", .str "z")]) k =
      (lookupKey [("x", .num 2), ("y", .str "z")] k).or
        (lookupKey [("id", .str "a"), ("x", .num 1)] k)) :=
  c3_merge_object envObjStatus
    [("tasks", .arr [.obj [("id", .str "a"), ("x", .num 1)]])]
    [.obj [("id", .str "a"), ("x", .num 1)]] 0
    (.obj [("id", .str "a"), ("x", .num 1)]) [("id", .str "a"), ("x", .num 1)]
    [("x", .num 2), ("y", .str "z")] (.str "a")
    rfl rfl (by decide) rfl rfl rfl rfl (by decide)

/-- C4: on every valid task-list document the GET /api/status response
document keeps every original top-level field unchanged except `tasks`
and `server_time`, carries `server_time` (added, or overwritten when the
source document already had it, by the in-place assignment semantics of
`setKey`), and the emitted task list is the original list mapped in
order, so task order and count are preserved. -/
theorem c4_frame (env : StatusEnv) (kvs : List (String × JSON)) (xs : List JSON)
    (henv : env.tasksJson = some (.obj kvs))
    (ht : lookupKey kvs "tasks" = some (.arr xs))
    (hwf : ∀ t ∈ xs, hasId t = true) :
    send_status env =
      .ok (.obj (setKey (setKey kvs "tasks" (.arr (xs.map (mergeOf env))))
        "server_time" (.str env.serverTime))) ∧
    (∀ k, k ≠ "tasks" → k ≠ "server_time" →
      lookupKey (setKey (setKey kvs "tasks" (.arr (xs.map (mergeOf env))))
        "server_time" (.str env.serverTime)) k = lookupKey kvs k) ∧
    lookupKey (setKey (setKey kvs "tasks" (.arr (xs.map (mergeOf env))))
      "server_time" (.str env.serverTime)) "server_time" = some (.str env.serverTime) ∧
    (xs.map (mergeOf env)).length = xs.length ∧
    (∀ i : Nat, (xs.map (mergeOf env))[i]? = (xs[i]?).map (mergeOf env)) := by
  refine ⟨send_status_ok env kvs xs henv ht hwf, ?_,
    lookupKey_setKey_self _ _ _, by simp, fun i => by simp⟩
  intro k hk1 hk2
  rw [lookupKey_setKey_ne _ _ _ _ hk2, lookupKey_setKey_ne _ _ _ _ hk1]

/-- C4 witness: the theorem evaluated on a concrete one-task document. -/
theorem c4_witness :
    send_status envObjStatus =
      .ok (.obj (setKey (setKey [("tasks", .arr [.obj [("id", .str "a"), ("x", .num 1)]])]
        "tasks" (.arr ([JSON.obj [("id", .str "a"), ("x", .num 1)]].map (mergeOf envObjStatus))))
        "server_time" (.str envObjStatus.serverTime))) ∧
    (∀ k, k ≠ "tasks" → k ≠ "server_time" →
      lookupKey (setKey (setKey [("tasks", .arr [.obj [("id", .str "a"), ("x", .num 1)]])]
        "tasks" (.arr ([JSON.obj [("id", .str "a"), ("x", .num 1)]].map (mergeOf envObjStatus))))
        "server_time" (.str envObjStatus.serverTime)) k =
      lookupKey [("tasks", .arr [.obj [("id", .str "a"), ("x", .num 1)]])] k) ∧
    lookupKey (setKey (setKey [("tasks", .arr [.obj [("id", .str "a"), ("x", .num 1)]])]
      "tasks" (.arr ([JSON.obj [("id", .str "a"), ("x", .num 1)]].map (mergeOf envObjStatus))))
      "server_time" (.str envObjStatus.serverTime)) "server_time" =
      some (.str envObjStatus.serverTime) ∧
    ([JSON.obj [("id", .str "a"), ("x", .num 1)]].map (mergeOf envObjStatus)).length =
      [JSON.obj [("id", .str "a"), ("x", .num 1)]].length ∧
    (∀ i : Nat, ([JSON.obj [("id", .str "a"), ("x", .num 1)]].map (mergeOf envObjStatus))[i]? =
      ([JSON.obj [("id", .str "a"), ("x", .num 1)]][i]?).map (mergeOf envObjStatus)) :=
  c4_frame envObjStatus [("tasks", .arr [.obj [("id", .str "a"), ("x", .num 1)]])]
    [.obj [("id", .str "a"), ("x", .num 1)]] rfl rfl (by decide)

/-- C5: whenever the task-list file is missing, unreadable or not valid
JSON, GET /api/status answers with HTTP 200, the standard headers, and
exactly the body `{"error": "tasks.json not found"}`; the conclusion does
not depend on the status store, so no status-file merge is performed. -/
theorem c5_error_body (env : StatusEnv) (h : env.tasksJson = none) :
    api_status env =
      .ok { status := 200, headers := stdHeaders,
            body := .obj [("error", .str "tasks.json not found")] } := by
  simp [api_status, send_status, h, send_json, Except.map]

/-- C5 witness: the theorem evaluated on two concrete snapshots with
different status stores, giving the same constant response. -/
theorem c5_witness :
    api_status envMissingTasks =
      .ok { status := 200, headers := stdHeaders,
            body := .obj [("error", .str "tasks.json not found")] } ∧
    api_status envAllRaise =
      .ok { status := 200, headers := stdHeaders,
            body := .obj [("error", .str "tasks.json not found")] } :=
  ⟨c5_error_body envMissingTasks rfl, c5_error_body envAllRaise rfl⟩

/-- C6 counterexample: for the id `"x/../../z"` the consulted path
`/tmp/kanban-dashboard/status/task-x/../../z.json` resolves to
`/tmp/kanban-dashboard/z.json`, outside the Status Store directory. -/
theorem c6_counterexample : ¬ inDir STATUS_DIR (task_path (.str "x/../../z")) := by
  rintro ⟨rest, hne, heq⟩
  have h1 : resolvePath (task_path (.str "x/../../z")) =
      ["tmp".data, "kanban-dashboard".data, "z.json".data] := by decide
  rw [h1, resolvePath_STATUS_DIR] at heq
  have hlen := congrArg List.length heq
  rw [List.length_append] at hlen
  simp only [List.length_cons, List.length_nil] at hlen
  have hz : rest.length = 0 := by omega
  exact hne (List.eq_nil_of_length_eq_zero hz)

/-- C6 (amended): the status file consulted for a task is exactly
`os.path.join(STATUS_DIR, "task-" + str(id) + ".json")` — the processing
of a task depends on the status store only through that one path — and
whenever the rendered id contains no slash the resolved path lies
strictly inside the Status Store directory (an id containing slash and
parent components can escape it, see the counterexample). -/
theorem c6_status_path (env env2 : StatusEnv) (task : JSON)
    (tk : List (String × JSON)) (idv : JSON)
    (htask : task = .obj tk) (hid : lookupKey tk "id" = some idv)
    (hfile : env.statusFile (task_path idv) = env2.statusFile (task_path idv))
    (hslash : ∀ c ∈ (pyStr idv).data, c ≠ '/') :
    task_path idv = STATUS_DIR ++ "/task-" ++ pyStr idv ++ ".json" ∧
    processTask env task = processTask env2 task ∧
    inDir STATUS_DIR (task_path idv) := by
  refine ⟨rfl, ?_, ?_⟩
  · subst htask
    simp [processTask, hid, hfile]
  · exact ⟨["task-".data ++ ((pyStr idv).data ++ ".json".data)], by simp,
      by rw [resolvePath_task_path idv hslash, resolvePath_STATUS_DIR]; rfl⟩

/-- C6 witness: the amended theorem evaluated at the slash-free id
`"a7"`, with two snapshots agreeing on the consulted path. -/
theorem c6_witness :
    task_path (.str "a7") = STATUS_DIR ++ "/task-" ++ pyStr (.str "a7") ++ ".json" ∧
    processTask envWellFormed (.obj [("id", .str "a7")]) =
      processTask envAllRaise (.obj [("id", .str "a7")]) ∧
    inDir STATUS_DIR (task_path (.str "a7")) :=
  c6_status_path envWellFormed envAllRaise (.obj [("id", .str "a7")])
    [("id", .str "a7")] (.str "a7") rfl rfl rfl (by decide)

/-- C7: on an existing, readable activity log the entries of GET /api/log
are the per-line entries of the last 50 raw lines in file order, there
are at most 50 of them, and a line that strips to blank contributes
none. -/
theorem c7_last50_order (env : LogEnv) (ls : List String)
    (h1 : env.logExists = true) (h2 : env.lines = some ls) :
    log_entries env = (ls.drop (ls.length - 50)).filterMap (line_entry env.parse) ∧
    (log_entries env).length ≤ 50 ∧
    (∀ line ∈ ls.drop (ls.length - 50), pyStrip line = "" →
      line_entry env.parse line = none) := by
  refine ⟨log_entries_eq env ls h1 h2, ?_, ?_⟩
  · rw [log_entries_eq env ls h1 h2]
    calc ((ls.drop (ls.length - 50)).filterMap (line_entry env.parse)).length
        ≤ (ls.drop (ls.length - 50)).length := List.length_filterMap_le _ _
      _ = ls.length - (ls.length - 50) := List.length_drop _ _
      _ ≤ 50 := by omega
  · intro line _ hblank
    simp [line_entry, hblank]

/-- C7 witness: the theorem evaluated on a concrete two-line log with one
unparsable line and one blank line. -/
theorem c7_witness :
    log_entries lenvTwo =
      ((["a", " "] : List String).drop ((["a", " "] : List String).length - 50)).filterMap
        (line_entry lenvTwo.parse) ∧
    (log_entries lenvTwo).length ≤ 50 ∧
    (∀ line ∈ (["a", " "] : List String).drop ((["a", " "] : List String).length - 50),
      pyStrip line = "" → line_entry lenvTwo.parse line = none) :=
  c7_last50_order lenvTwo ["a", " "] rfl rfl

/-- C8: each non-blank line of the kept window contributes exactly one
entry: the parsed JSON value unchanged when `json.loads` succeeds on the
stripped line, and exactly the wrapper object with the stripped text as
`message` and empty `time` when it fails. -/
theorem c8_entry_cases (env : LogEnv) (ls : List String)
    (h1 : env.logExists = true) (h2 : env.lines = some ls) :
    log_entries env = (ls.drop (ls.length - 50)).filterMap (fun line =>
      if pyStrip line = "" then none
      else
        match env.parse (pyStrip line) with
        | some v => some v
        | none => some (.obj [("message", .str (pyStrip line)), ("time", .str "")])) ∧
    (∀ line v, pyStrip line ≠ "" → env.parse (pyStrip line) = some v →
      line_entry env.parse line = some v) ∧
    (∀ line, pyStrip line ≠ "" → env.parse (pyStrip line) = none →
      line_entry env.parse line =
        some (.obj [("message", .str (pyStrip line)), ("time", .str "")])) := by
  refine ⟨?_, ?_, ?_⟩
  · rw [log_entries_eq env ls h1 h2]
    rfl
  · intro line v hb hp
    simp [line_entry, hb, hp]
  · intro line hb hp
    simp [line_entry, hb, hp]

/-- C8 witness: the theorem evaluated on the concrete two-line log; the
unparsable line `"a"` becomes the wrapper object. -/
theorem c8_witness :
    log_entries lenvTwo =
      ((["a", " "] : List String).drop ((["a", " "] : List String).length - 50)).filterMap
        (fun line =>
          if pyStrip line = "" then none
          else
            match lenvTwo.parse (pyStrip line) with
            | some v => some v
            | none => some (.obj [("message", .str (pyStrip line)), ("time", .str "")])) ∧
    (∀ line v, pyStrip line ≠ "" → lenvTwo.parse (pyStrip line) = some v →
      line_entry lenvTwo.parse line = some v) ∧
    (∀ line, pyStrip line ≠ "" → lenvTwo.parse (pyStrip line) = none →
      line_entry lenvTwo.parse line =
        some (.obj [("message", .str (pyStrip line)), ("time", .str "")])) :=
  c8_entry_cases lenvTwo ["a", " "] rfl rfl

/-- C9: `send_json` always produces status 200 with the three fixed
headers, so every response of GET /api/status and GET /api/log — the
error body and the empty-entries body included — carries status 200,
`Content-Type: application/json`, `Access-Control-Allow-Origin: *` and
`Cache-Control: no-cache`. -/
theorem c9_headers (d : JSON) (env : StatusEnv) (lenv : LogEnv) (r : HttpResponse)
    (h : api_status env = .ok r) :
    send_json d = { status := 200, headers := stdHeaders, body := d } ∧
    r.status = 200 ∧
    ("Content-Type", "application/json") ∈ r.headers ∧
    ("Access-Control-Allow-Origin", "*") ∈ r.headers ∧
    ("Cache-Control", "no-cache") ∈ r.headers ∧
    (api_log lenv).status = 200 ∧
    ("Content-Type", "application/json") ∈ (api_log lenv).headers ∧
    ("Access-Control-Allow-Origin", "*") ∈ (api_log lenv).headers ∧
    ("Cache-Control", "no-cache") ∈ (api_log lenv).headers := by
  have hmain : ∃ b, r = send_json b := by
    cases hs : send_status env with
    | error e =>
      rw [api_status, hs] at h
      simp [Except.map] at h
    | ok b =>
      rw [api_status, hs] at h
      simp [Except.map] at h
      exact ⟨b, h.symm⟩
  obtain ⟨b, hb⟩ := hmain
  subst hb
  refine ⟨rfl, rfl, ?_, ?_, ?_, rfl, ?_, ?_, ?_⟩ <;> simp [send_json, api_log, stdHeaders]

/-- C9 witness: the theorem evaluated at a concrete document, the
missing-task-list snapshot (whose response is the error body), and the
missing-log snapshot (whose response is the empty-entries body). -/
theorem c9_witness :
    send_json .null = { status := 200, headers := stdHeaders, body := .null } ∧
    (send_json (.obj [("error", .str "tasks.json not found")])).status = 200 ∧
    ("Content-Type", "application/json") ∈
      (send_json (.obj [("error", .str "tasks.json not found")])).headers ∧
    ("Access-Control-Allow-Origin", "*") ∈
      (send_json (.obj [("error", .str "tasks.json not found")])).headers ∧
    ("Cache-Control", "no-cache") ∈
      (send_json (.obj [("error", .str "tasks.json not found")])).headers ∧
    (api_log lenvEmpty).status = 200 ∧
    ("Content-Type", "application/json") ∈ (api_log lenvEmpty).headers ∧
    ("Access-Control-Allow-Origin", "*") ∈ (api_log lenvEmpty).headers ∧
    ("Cache-Control", "no-cache") ∈ (api_log lenvEmpty).headers :=
  c9_headers .null envMissingTasks lenvEmpty
    (send_json (.obj [("error", .str "tasks.json not found")])) rfl

/-- C10: a log line parsing to any JSON value is appended unwrapped, so a
line parsing to a non-object value yields a non-object entry in the
GET /api/log response. -/
theorem c10_nonobject_entry (env : LogEnv) (line : String) (v : JSON)
    (h1 : env.logExists = true) (h2 : env.lines = some [line])
    (h3 : ¬ pyStrip line = "") (h4 : env.parse (pyStrip line) = some v)
    (h5 : isObj v = false) :
    log_entries env = [v] ∧ ∃ e ∈ log_entries env, isObj e = false := by
  have he : log_entries env = [v] := by
    rw [log_entries_eq env [line] h1 h2]
    simp [line_entry, h3, h4]
  exact ⟨he, ⟨v, by simp [he], h5⟩⟩

/-- C10 witness: the theorem evaluated on a concrete log whose single
line parses to the number 7. -/
theorem c10_witness :
    log_entries lenvNum = [.num 7] ∧ ∃ e ∈ log_entries lenvNum, isObj e = false :=
  c10_nonobject_entry lenvNum "7" (.num 7) rfl rfl (by decide) rfl rfl
